import Mathlib

/-!
Shallow embedding of the task/volunteer coordination subsystem of the
help-now repository: the match scorer duplicated in
src/components/TaskFeed.tsx and the map view component, the haversine
distance function of src/hooks/useTasks.tsx, and the client-side state
transitions of src/hooks/useTasks.tsx, src/hooks/useTaskVolunteers.tsx and
the full completeTask of src/components/TaskDetailModal.tsx, over the SQL
schema (tables tasks, task_volunteers, profiles; unique (task_id,
volunteer_id); enum defaults status='open', current_volunteers=0 for
tasks and status TEXT DEFAULT 'active' for task_volunteers).

Numbers: JS floating point is modelled by ℚ for scores/hours/distances
and by ℝ for the trigonometric distance function; uuid/timestamp values
are modelled by Nat.
-/

namespace HelpNow

/-! ## Data model (src/types/database.ts and the SQL schema) -/

inductive TimeNeeded where
  | t15min | t30min | t1hour | t2hours | thalf_day
  deriving DecidableEq, Repr

inductive TaskUrgency where
  | low | medium | high
  deriving DecidableEq, Repr

inductive TaskStatus where
  | open_ | in_progress | completed | cancelled
  deriving DecidableEq, Repr

/-- Volunteer-row status values actually stored: the SQL column is TEXT
DEFAULT 'active' (acceptTask inserts no status, so its rows are 'active');
offerToHelp inserts 'pending'; the creator flips rows to 'accepted' or
'rejected'. -/
inductive VolunteerStatus where
  | active | pending | accepted | rejected
  deriving DecidableEq, Repr

structure Task where
  id : Nat
  creator_id : Nat
  title : String
  time_needed : TimeNeeded
  urgency : TaskUrgency
  status : TaskStatus
  skills_needed : List String
  max_volunteers : Nat
  current_volunteers : Nat
  completed_at : Option Nat
  /-- Client-side annotation added by fetchTasks when the profile has a
  location; consumed by the match scorer. -/
  distance : Option ℚ
  deriving DecidableEq, Repr

structure TaskVolunteer where
  task_id : Nat
  volunteer_id : Nat
  status : VolunteerStatus
  deriving DecidableEq, Repr

structure ProfileRow where
  user_id : Nat
  skills : List String
  tasks_completed : Int
  total_volunteer_hours : ℚ
  deriving DecidableEq, Repr

/-- In-memory image of the three database tables the subsystem touches. -/
structure DBState where
  tasks : List Task
  volunteers : List TaskVolunteer
  profiles : List ProfileRow
  deriving DecidableEq, Repr

/-! ## Match scorer (src/components/TaskFeed.tsx lines 82-112; the map
view component has a character-for-character identical copy) -/

/-- Distance bonus of the scoring loop: `if (task.distance !== undefined
&& task.distance < 5) score += 2 - (task.distance / 5)`. -/
def proximityBonus : Option ℚ → ℚ
  | some d => if d < 5 then 2 - d / 5 else 0
  | none => 0

/-- Skill part of the scoring loop: `for (const skill of
task.skills_needed || []) if (userSkills.has(skill)) score += 2`. -/
def skillScore (userSkills : List String) (skillsNeeded : List String) : ℚ :=
  skillsNeeded.foldl (fun sc sk => if userSkills.contains sk then sc + 2 else sc) 0

/-- Score of one task inside the bestMatchId loop: skill hits, then the
distance bonus, then `if (task.urgency === 'high') score += 1`. -/
def matchScore (userSkills : List String) (t : Task) : ℚ :=
  skillScore userSkills t.skills_needed + proximityBonus t.distance +
    (if t.urgency = .high then 1 else 0)

/-- State-passing body of the bestMatchId loop: `if (score > bestScore)
{ bestScore = score; bestTask = task; }`. -/
def bestStep (userSkills : List String) (acc : Option Task × ℚ) (t : Task) :
    Option Task × ℚ :=
  if acc.2 < matchScore userSkills t then (some t, matchScore userSkills t) else acc

/-- bestMatchId of src/components/TaskFeed.tsx: guard
`if (!profile?.skills?.length || !filteredTasks.length) return null`, the
fold with bestScore starting at 0, and
`return bestScore > 0 ? bestTask?.id : null`. -/
def bestMatchIdFeed (userSkills : List String) (filteredTasks : List Task) :
    Option Nat :=
  if userSkills.isEmpty || filteredTasks.isEmpty then none
  else
    let r := filteredTasks.foldl (bestStep userSkills) (none, 0)
    if 0 < r.2 then r.1.map (fun t => t.id) else none

/-- bestMatchId of the map view component (src/unnamed/part_001 lines
126-150), an identical copy of the TaskFeed loop. -/
def bestMatchIdMap (userSkills : List String) (filteredTasks : List Task) :
    Option Nat :=
  if userSkills.isEmpty || filteredTasks.isEmpty then none
  else
    let r := filteredTasks.foldl (bestStep userSkills) (none, 0)
    if 0 < r.2 then r.1.map (fun t => t.id) else none

/-- Score of one task as the spec words it: 2 times the number of skills
of skills_needed that the user also has, plus the proximity bonus, plus 1
when urgency is high. -/
def claimScore (userSkills : List String) (t : Task) : ℚ :=
  2 * ((t.skills_needed.countP (fun sk => userSkills.contains sk) : ℕ) : ℚ) +
    proximityBonus t.distance + (if t.urgency = .high then 1 else 0)

/-- Highest score over a task list (0 when the list is empty). -/
def maxScore (userSkills : List String) (ts : List Task) : ℚ :=
  ts.foldl (fun m t => max m (claimScore userSkills t)) 0

/-- Best match as the spec words it: the task with the strictly highest
score provided that score is positive, ties keeping the first task in
input order, and none when no task scores above 0. -/
def specBestMatch (userSkills : List String) (ts : List Task) : Option Nat :=
  if 0 < maxScore userSkills ts then
    (ts.find? (fun t => decide (claimScore userSkills t = maxScore userSkills ts))).map
      (fun t => t.id)
  else none

/-! ## Distance calculator (src/hooks/useTasks.tsx lines 25-34),
modelled over ℝ (JS float rounding is not modelled). -/

/-- Modelled from the JS standard library: Math.atan2(y, x). -/
noncomputable def atan2 (y x : ℝ) : ℝ :=
  if 0 < x then Real.arctan (y / x)
  else if x < 0 then
    (if 0 ≤ y then Real.arctan (y / x) + Real.pi else Real.arctan (y / x) - Real.pi)
  else (if 0 < y then Real.pi / 2 else if y < 0 then -(Real.pi / 2) else 0)

/-- calculateDistance of src/hooks/useTasks.tsx: haversine formula with
Earth radius R = 3959 miles. -/
noncomputable def calculateDistance (lat1 lng1 lat2 lng2 : ℝ) : ℝ :=
  let R : ℝ := 3959
  let dLat := (lat2 - lat1) * Real.pi / 180
  let dLng := (lng2 - lng1) * Real.pi / 180
  let a := Real.sin (dLat / 2) * Real.sin (dLat / 2) +
    Real.cos (lat1 * Real.pi / 180) * Real.cos (lat2 * Real.pi / 180) *
    Real.sin (dLng / 2) * Real.sin (dLng / 2)
  let c := 2 * atan2 (Real.sqrt a) (Real.sqrt (1 - a))
  R * c

/-! ## Operations of the task lifecycle

The database is the authoritative state; the hooks keep task-scoped or
status-scoped local caches of it which, between mutations, equal the
corresponding filter of the database (fetchTasks selects status in
{open, in_progress}; useTaskVolunteers selects the rows of one task).
Each operation below is the success path of the corresponding hook
function, with the caller identity passed explicitly; the unique
(task_id, volunteer_id) constraint of the schema makes the two insert
paths fallible. -/

/-- Local tasks cache: fetchTasks selects status in {open, in_progress}. -/
def viewTasks (s : DBState) : List Task :=
  s.tasks.filter (fun t => t.status == .open_ || t.status == .in_progress)

/-- Test used by the unique (task_id, volunteer_id) constraint. -/
def hasVolunteerRow (s : DBState) (tid uid : Nat) : Bool :=
  s.volunteers.any (fun v => v.task_id == tid && v.volunteer_id == uid)

/-- createTask of src/hooks/useTasks.tsx: inserts a task owned by the
caller; the schema defaults give status open, current_volunteers 0 and no
completion time (the row id is generated by the database and passed here
as a parameter). -/
def createTask (id creator : Nat) (title : String) (tn : TimeNeeded)
    (u : TaskUrgency) (skills : List String) (maxv : Nat) (s : DBState) : DBState :=
  { s with tasks := s.tasks ++
      [{ id := id, creator_id := creator, title := title,
         time_needed := tn, urgency := u, status := .open_, skills_needed := skills,
         max_volunteers := maxv, current_volunteers := 0, completed_at := none,
         distance := none }] }

/-- offerToHelp of src/hooks/useTaskVolunteers.tsx: the authenticated
caller inserts a row with status pending; the unique (task_id,
volunteer_id) constraint turns a duplicate insert into an error. -/
def offerToHelp (uid tid : Nat) (s : DBState) : Except String DBState :=
  if hasVolunteerRow s tid uid then
    .error "duplicate key value violates unique constraint"
  else
    .ok { s with volunteers := s.volunteers ++
            [{ task_id := tid, volunteer_id := uid, status := .pending }] }

/-- acceptTask of src/hooks/useTasks.tsx (legacy single-step flow):
inserts the caller as a volunteer with no explicit status (the column
default 'active' applies), then, when the task is present in the local
open/in-progress cache, writes current_volunteers + 1 and flips status to
in_progress once the new count reaches max_volunteers. -/
def acceptTask (uid tid : Nat) (s : DBState) : Except String DBState :=
  if hasVolunteerRow s tid uid then
    .error "duplicate key value violates unique constraint"
  else
    let s1 : DBState := { s with volunteers := s.volunteers ++
      [{ task_id := tid, volunteer_id := uid, status := .active }] }
    match (viewTasks s).find? (fun t => t.id == tid) with
    | some task =>
        let newCount := task.current_volunteers + 1
        let newStatus := if task.max_volunteers ≤ newCount then TaskStatus.in_progress
          else task.status
        .ok { s1 with tasks := s1.tasks.map (fun t =>
          if t.id == tid then
            { t with current_volunteers := newCount, status := newStatus }
          else t) }
    | none => .ok s1

/-- acceptVolunteer of src/hooks/useTaskVolunteers.tsx: sets the row
(tid, volId) to accepted, then writes onto the task the accepted count of
the still-unrefetched local list plus one, and status in_progress
unconditionally. -/
def acceptVolunteer (tid volId : Nat) (s : DBState) : DBState :=
  let acceptedCount :=
    (s.volunteers.filter (fun v => v.task_id == tid && v.status == .accepted)).length + 1
  { s with
    volunteers := s.volunteers.map (fun v =>
      if v.task_id == tid && v.volunteer_id == volId then { v with status := .accepted }
      else v),
    tasks := s.tasks.map (fun t =>
      if t.id == tid then
        { t with current_volunteers := acceptedCount, status := .in_progress }
      else t) }

/-- rejectVolunteer of src/hooks/useTaskVolunteers.tsx: sets the row to
rejected; no task-level side effects. -/
def rejectVolunteer (tid volId : Nat) (s : DBState) : DBState :=
  { s with volunteers := s.volunteers.map (fun v =>
      if v.task_id == tid && v.volunteer_id == volId then { v with status := .rejected }
      else v) }

/-- withdrawOffer of src/hooks/useTaskVolunteers.tsx: the caller deletes
their own row for this task, whatever its status. -/
def withdrawOffer (uid tid : Nat) (s : DBState) : DBState :=
  { s with volunteers := s.volunteers.filter (fun v =>
      !(v.task_id == tid && v.volunteer_id == uid)) }

/-- Hours lookup table of completeTask in src/components/TaskDetailModal.tsx. -/
def hoursFor : TimeNeeded → ℚ
  | .t15min => 1/4
  | .t30min => 1/2
  | .t1hour => 1
  | .t2hours => 2
  | .thalf_day => 4

/-- Per-volunteer profile update of completeTask: read the profile row of
the volunteer and, when it exists, add 1 to tasks_completed and the
estimated hours to total_volunteer_hours. -/
def bumpProfile (uid : Nat) (hours : ℚ) (ps : List ProfileRow) : List ProfileRow :=
  if ps.any (fun p => p.user_id == uid) then
    ps.map (fun p =>
      if p.user_id == uid then
        { p with tasks_completed := p.tasks_completed + 1,
                 total_volunteer_hours := p.total_volunteer_hours + hours }
      else p)
  else ps

/-- completeTask of src/components/TaskDetailModal.tsx lines 543-601:
looks the task up in the local cache, sets status completed and
completed_at to now, queries the accepted volunteers of the task, and
updates each of their profiles with the hours of the lookup table (0.5
when the local lookup found no task). -/
def completeTask (tid now : Nat) (s : DBState) : DBState :=
  let task := (viewTasks s).find? (fun t => t.id == tid)
  let tasks2 := s.tasks.map (fun t =>
    if t.id == tid then { t with status := .completed, completed_at := some now }
    else t)
  let accepted := s.volunteers.filter (fun v =>
    v.task_id == tid && v.status == .accepted)
  let hours : ℚ := match task with
    | some t => hoursFor t.time_needed
    | none => 1/2
  { s with
      tasks := tasks2,
      profiles := accepted.foldl (fun ps v => bumpProfile v.volunteer_id hours ps)
        s.profiles }

/-- One operation of the subsystem, with every identity the database or
the session would supply given explicitly. -/
inductive Op where
  | createTask (id creator : Nat) (title : String) (tn : TimeNeeded)
      (u : TaskUrgency) (skills : List String) (maxv : Nat)
  | offerToHelp (uid tid : Nat)
  | acceptTask (uid tid : Nat)
  | acceptVolunteer (tid volId : Nat)
  | rejectVolunteer (tid volId : Nat)
  | withdrawOffer (uid tid : Nat)
  | completeTask (tid now : Nat)
  deriving DecidableEq, Repr

/-- Step function: a failed insert surfaces as an error value and leaves
the state unchanged. -/
def step : Op → DBState → DBState
  | .createTask id c ti tn u sk mv, s => createTask id c ti tn u sk mv s
  | .offerToHelp uid tid, s =>
      match offerToHelp uid tid s with
      | .ok s2 => s2
      | .error _ => s
  | .acceptTask uid tid, s =>
      match acceptTask uid tid s with
      | .ok s2 => s2
      | .error _ => s
  | .acceptVolunteer tid v, s => acceptVolunteer tid v s
  | .rejectVolunteer tid v, s => rejectVolunteer tid v s
  | .withdrawOffer uid tid, s => withdrawOffer uid tid s
  | .completeTask tid n, s => completeTask tid n s

def run (ops : List Op) (s : DBState) : DBState :=
  ops.foldl (fun s o => step o s) s

def initState : DBState := { tasks := [], volunteers := [], profiles := [] }

/-- Status of the task with the given id, when present. -/
def statusOf (s : DBState) (tid : Nat) : Option TaskStatus :=
  (s.tasks.find? (fun t => t.id == tid)).map (fun t => t.status)

/-- Derived volunteer status of one user on one task, as the hook
computes it from the loaded list (none when no row exists). -/
def userStatus (s : DBState) (tid uid : Nat) : Option VolunteerStatus :=
  (s.volunteers.find? (fun v => v.task_id == tid && v.volunteer_id == uid)).map
    (fun v => v.status)

/-! ## List lemmas shared by the claim proofs -/

theorem find?_map_pred {α : Type _} (p : α → Bool) (f : α → α)
    (hf : ∀ x, p (f x) = p x) :
    ∀ l : List α, (l.map f).find? p = (l.find? p).map f := by
  intro l
  induction l with
  | nil => rfl
  | cons a l ih =>
    by_cases h : p a = true
    · rw [List.map_cons, List.find?_cons_of_pos _ ((hf a).trans h),
        List.find?_cons_of_pos _ h, Option.map_some']
    · rw [List.map_cons, List.find?_cons_of_neg _ (by simp [hf a, h]),
        List.find?_cons_of_neg _ (by simp [h]), ih]

theorem find?_filter_of_imp {α : Type _} (p keep : α → Bool)
    (himp : ∀ x, p x = true → keep x = true) :
    ∀ l : List α, (l.filter keep).find? p = l.find? p := by
  intro l
  induction l with
  | nil => rfl
  | cons a l ih =>
    by_cases hk : keep a = true
    · rw [List.filter_cons_of_pos hk]
      by_cases hp : p a = true
      · rw [List.find?_cons_of_pos _ hp, List.find?_cons_of_pos _ hp]
      · rw [List.find?_cons_of_neg _ (by simp [hp]),
          List.find?_cons_of_neg _ (by simp [hp]), ih]
    · rw [List.filter_cons_of_neg (by simp [hk]),
        List.find?_cons_of_neg _ (fun hp => hk (himp a hp)), ih]

theorem find?_eq_of_filter_singleton {α : Type _} {p : α → Bool} :
    ∀ {l : List α} {v : α}, l.filter p = [v] → l.find? p = some v := by
  intro l
  induction l with
  | nil => intro v h; simp at h
  | cons a l ih =>
    intro v h
    by_cases hp : p a = true
    · rw [List.filter_cons_of_pos hp] at h
      obtain ⟨rfl, -⟩ : a = v ∧ l.filter p = [] := by simpa using h
      rw [List.find?_cons_of_pos _ hp]
    · rw [List.filter_cons_of_neg (by simp [hp])] at h
      rw [List.find?_cons_of_neg _ (by simp [hp])]
      exact ih h

theorem map_eq_self_of_filter_nil {α : Type _} {p : α → Bool} {f : α → α}
    (hf : ∀ x, p x = false → f x = x) :
    ∀ l : List α, l.filter p = [] → l.map f = l := by
  intro l
  induction l with
  | nil => intro _; rfl
  | cons a l ih =>
    intro h
    by_cases hp : p a = true
    · rw [List.filter_cons_of_pos hp] at h
      simp at h
    · rw [List.filter_cons_of_neg (by simp [hp])] at h
      rw [List.map_cons, hf a (by simpa using hp), ih h]

theorem find?_key_unique {α : Type _} (key : α → Nat) {k : Nat} :
    ∀ {l : List α}, (l.map key).Nodup → ∀ {t : α}, t ∈ l → key t = k →
      l.find? (fun x => key x == k) = some t := by
  intro l
  induction l with
  | nil => intro _ t ht; exact absurd ht (List.not_mem_nil t)
  | cons a l ih =>
    intro hn t ht hk
    rw [List.map_cons, List.nodup_cons] at hn
    rcases List.mem_cons.mp ht with rfl | hmem
    · rw [List.find?_cons_of_pos _ (by simp [hk])]
    · by_cases hpa : (key a == k) = true
      · exfalso
        have hak : key a = k := by simpa using hpa
        exact hn.1 (hak ▸ hk ▸ List.mem_map_of_mem key hmem)
      · rw [List.find?_cons_of_neg _ (by simp_all)]
        exact ih hn.2 hmem hk

theorem any_of_find?_eq_some {α : Type _} {p : α → Bool} {l : List α} {v : α}
    (h : l.find? p = some v) : l.any p = true :=
  List.any_eq_true.mpr ⟨v, List.mem_of_find?_eq_some h, List.find?_some h⟩

/-! ## Characterisation of the bestMatchId fold -/

theorem skillScore_shift (us : List String) :
    ∀ (sn : List String) (a : ℚ),
      sn.foldl (fun sc sk => if us.contains sk then sc + 2 else sc) a =
        a + 2 * ((sn.countP (fun sk => us.contains sk) : ℕ) : ℚ) := by
  intro sn
  induction sn with
  | nil => intro a; simp
  | cons sk sn ih =>
    intro a
    by_cases h : us.contains sk = true
    · rw [List.foldl_cons, if_pos h, ih, List.countP_cons_of_pos _ _ h]
      push_cast
      ring
    · rw [List.foldl_cons, if_neg h, ih, List.countP_cons_of_neg _ _ h]

theorem matchScore_eq_claimScore (us : List String) (t : Task) :
    matchScore us t = claimScore us t := by
  rw [matchScore, claimScore, skillScore, skillScore_shift]
  ring

/-- Running maximum of matchScore over a task list, from a start value. -/
def maxFoldFrom (us : List String) (s : ℚ) (ts : List Task) : ℚ :=
  ts.foldl (fun m t => max m (matchScore us t)) s

theorem maxFoldFrom_cons (us : List String) (s : ℚ) (t : Task) (ts : List Task) :
    maxFoldFrom us s (t :: ts) = maxFoldFrom us (max s (matchScore us t)) ts := rfl

theorem le_maxFoldFrom (us : List String) :
    ∀ (ts : List Task) (s : ℚ), s ≤ maxFoldFrom us s ts := by
  intro ts
  induction ts with
  | nil => intro s; exact le_refl s
  | cons t ts ih =>
    intro s
    exact le_trans (le_max_left s (matchScore us t)) (ih (max s (matchScore us t)))

theorem bestFold_snd (us : List String) :
    ∀ (ts : List Task) (b : Option Task) (s : ℚ),
      (ts.foldl (bestStep us) (b, s)).2 = maxFoldFrom us s ts := by
  intro ts
  induction ts with
  | nil => intro b s; rfl
  | cons t ts ih =>
    intro b s
    rw [List.foldl_cons, bestStep, maxFoldFrom_cons]
    by_cases h : s < matchScore us t
    · rw [if_pos h, ih, max_eq_right h.le]
    · rw [if_neg h, ih, max_eq_left (le_of_not_lt h)]

theorem bestFold_fst (us : List String) :
    ∀ (ts : List Task) (b : Option Task) (s : ℚ),
      (ts.foldl (bestStep us) (b, s)).1 =
        if s < maxFoldFrom us s ts then
          ts.find? (fun t => decide (matchScore us t = maxFoldFrom us s ts))
        else b := by
  intro ts
  induction ts with
  | nil => intro b s; simp [maxFoldFrom]
  | cons t ts ih =>
    intro b s
    rw [List.foldl_cons, bestStep, maxFoldFrom_cons]
    by_cases h : s < matchScore us t
    · rw [if_pos h, ih (some t) (matchScore us t), max_eq_right h.le]
      have hsM : s < maxFoldFrom us (matchScore us t) ts :=
        lt_of_lt_of_le h (le_maxFoldFrom us ts (matchScore us t))
      rw [if_pos hsM]
      by_cases heq : matchScore us t = maxFoldFrom us (matchScore us t) ts
      · rw [if_neg (by rw [← heq]; exact lt_irrefl _),
          List.find?_cons_of_pos _ (by simpa using heq)]
      · rw [if_pos (lt_of_le_of_ne (le_maxFoldFrom us ts (matchScore us t)) heq),
          List.find?_cons_of_neg _ (by simpa using heq)]
    · rw [if_neg h, ih b s, max_eq_left (le_of_not_lt h)]
      by_cases hsM : s < maxFoldFrom us s ts
      · have hne : matchScore us t ≠ maxFoldFrom us s ts :=
          ne_of_lt (lt_of_le_of_lt (le_of_not_lt h) hsM)
        rw [if_pos hsM, if_pos hsM, List.find?_cons_of_neg _ (by simpa using hne)]
      · rw [if_neg hsM, if_neg hsM]

theorem maxScore_eq_maxFoldFrom (us : List String) (ts : List Task) :
    maxScore us ts = maxFoldFrom us 0 ts := by
  rw [maxScore, maxFoldFrom]
  congr 1
  funext m t
  rw [matchScore_eq_claimScore]

/-! ## Claim theorems -/

/-- High-urgency nearby task used to refute the unrestricted reading of
the best-match claim: against an empty user skill set its claimed score
is 3, yet the code returns null. -/
def cexTask : Task :=
  { id := 7, creator_id := 0, title := "t", time_needed := .t1hour,
    urgency := .high, status := .open_, skills_needed := [], max_volunteers := 1,
    current_volunteers := 0, completed_at := none, distance := some 0 }

/-- C1, counterexample: with an empty user skill set, a task at distance
0 with urgency high scores 3 > 0 under the claimed scoring formula, so
the claim demands it as best match, but bestMatchId returns null (the
code guards on profile.skills.length). -/
theorem bestMatch_empty_skills_cex :
    claimScore [] cexTask = 3 ∧ (0 : ℚ) < 3 ∧
    specBestMatch [] [cexTask] = some 7 ∧
    bestMatchIdFeed [] [cexTask] = none := by
  refine ⟨by norm_num [claimScore, cexTask, proximityBonus], by norm_num, ?_, rfl⟩
  norm_num [specBestMatch, maxScore, claimScore, cexTask, proximityBonus, List.find?]

/-- C1 (amended): provided the user's skill set is nonempty, bestMatchId
computes exactly the best match the claim describes: score = 2 per shared
skill + proximity bonus + 1 for high urgency; the result is the task with
the strictly highest score when that score is positive, ties keeping the
first task in input order, and null when no task scores above 0 (with an
empty skill set the code returns null regardless of scores). -/
theorem bestMatch_spec_amended (us : List String) (ts : List Task) (h : us ≠ []) :
    bestMatchIdFeed us ts = specBestMatch us ts := by
  have hus : us.isEmpty = false := by
    cases us with
    | nil => exact absurd rfl h
    | cons a l => rfl
  cases ts with
  | nil => simp [bestMatchIdFeed, specBestMatch, maxScore, hus]
  | cons t ts2 =>
    rw [bestMatchIdFeed, specBestMatch, maxScore_eq_maxFoldFrom, hus]
    simp only [← matchScore_eq_claimScore, List.isEmpty_cons, Bool.false_or,
      Bool.if_false_left, Bool.not_false, ite_true]
    rw [bestFold_snd, bestFold_fst]
    by_cases h0 : (0 : ℚ) < maxFoldFrom us 0 (t :: ts2)
    · rw [if_pos h0, if_pos h0, if_pos h0]
      simp
    · rw [if_neg h0, if_neg h0]
      simp

/-- Input for the amended best-match witness. -/
def witTask : Task :=
  { id := 3, creator_id := 0, title := "t", time_needed := .t30min,
    urgency := .low, status := .open_, skills_needed := ["a", "b"],
    max_volunteers := 1, current_volunteers := 0, completed_at := none,
    distance := none }

theorem bestMatch_spec_amended_witness :
    (["a"] : List String) ≠ [] ∧
    bestMatchIdFeed ["a"] [witTask] = specBestMatch ["a"] [witTask] :=
  ⟨List.cons_ne_nil "a" [], bestMatch_spec_amended ["a"] [witTask]
    (List.cons_ne_nil "a" [])⟩

/-- C9: the best-match computation of the task feed and the one of the
map view are extensionally equal: on the same skills and the same task
list (with the same distances) they return the same result. -/
theorem bestMatch_feed_map_agree (us : List String) (ts : List Task) :
    bestMatchIdFeed us ts = bestMatchIdMap us ts := rfl

/-- C5, counterexample: at distance 4.99 miles the proximity bonus is
1.002, which is larger than 1, refuting that the bonus shrinks to 0 as
the distance approaches 5 miles. -/
theorem proximityBonus_near_five_cex :
    proximityBonus (some (499 / 100)) = 501 / 500 ∧ (1 : ℚ) < 501 / 500 :=
  ⟨by norm_num [proximityBonus], by norm_num⟩

/-- C5 (amended): for 0 ≤ d < 5 the bonus is exactly 2 − d/5, strictly
between 1 and 2, and it decreases linearly in d (the drop between two
distances d < e below 5 is (e − d)/5), so it shrinks toward 1 — not 0 —
as d approaches 5; for d ≥ 5 or an undefined distance the bonus is
exactly 0. -/
theorem proximityBonus_amended (d : ℚ) (h0 : 0 ≤ d) (h5 : d < 5) :
    proximityBonus (some d) = 2 - d / 5 ∧
    1 < proximityBonus (some d) ∧ proximityBonus (some d) ≤ 2 ∧
    (∀ e : ℚ, d < e → e < 5 →
      proximityBonus (some e) < proximityBonus (some d) ∧
      proximityBonus (some d) - proximityBonus (some e) = (e - d) / 5) ∧
    (∀ e : ℚ, 5 ≤ e → proximityBonus (some e) = 0) ∧
    proximityBonus (none : Option ℚ) = 0 := by
  refine ⟨by rw [proximityBonus, if_pos h5], ?_, ?_, ?_, ?_, rfl⟩
  · rw [proximityBonus, if_pos h5]; linarith
  · rw [proximityBonus, if_pos h5]; linarith
  · intro e hde he5
    simp only [proximityBonus]
    rw [if_pos h5, if_pos he5]
    constructor
    · linarith
    · ring
  · intro e he
    rw [proximityBonus, if_neg (not_lt.mpr he)]

theorem proximityBonus_amended_witness :
    (0 : ℚ) ≤ 1 ∧ (1 : ℚ) < 5 ∧
    (proximityBonus (some 1) = 2 - 1 / 5 ∧
     1 < proximityBonus (some 1) ∧ proximityBonus (some 1) ≤ 2 ∧
     (∀ e : ℚ, 1 < e → e < 5 →
       proximityBonus (some e) < proximityBonus (some 1) ∧
       proximityBonus (some 1) - proximityBonus (some e) = (e - 1) / 5) ∧
     (∀ e : ℚ, 5 ≤ e → proximityBonus (some e) = 0) ∧
     proximityBonus (none : Option ℚ) = 0) :=
  ⟨by norm_num, by norm_num,
    proximityBonus_amended 1 (by norm_num) (by norm_num)⟩

/-- C8: the haversine distance is 0 from any point to itself, and it is
symmetric in its two points. -/
theorem calculateDistance_self_symm :
    (∀ lat lng : ℝ, calculateDistance lat lng lat lng = 0) ∧
    (∀ lat1 lng1 lat2 lng2 : ℝ,
      calculateDistance lat1 lng1 lat2 lng2 = calculateDistance lat2 lng2 lat1 lng1) := by
  constructor
  · intro lat lng
    simp only [calculateDistance, atan2]
    norm_num [Real.sqrt_one, Real.arctan_zero]
  · intro lat1 lng1 lat2 lng2
    have hs : ∀ x y : ℝ,
        Real.sin ((x - y) * Real.pi / 180 / 2) = -Real.sin ((y - x) * Real.pi / 180 / 2) := by
      intro x y
      rw [show (x - y) * Real.pi / 180 / 2 = -((y - x) * Real.pi / 180 / 2) by ring,
        Real.sin_neg]
    simp only [calculateDistance]
    have ha : Real.sin ((lat1 - lat2) * Real.pi / 180 / 2) *
          Real.sin ((lat1 - lat2) * Real.pi / 180 / 2) +
        Real.cos (lat2 * Real.pi / 180) * Real.cos (lat1 * Real.pi / 180) *
            Real.sin ((lng1 - lng2) * Real.pi / 180 / 2) *
          Real.sin ((lng1 - lng2) * Real.pi / 180 / 2) =
        Real.sin ((lat2 - lat1) * Real.pi / 180 / 2) *
          Real.sin ((lat2 - lat1) * Real.pi / 180 / 2) +
        Real.cos (lat1 * Real.pi / 180) * Real.cos (lat2 * Real.pi / 180) *
            Real.sin ((lng2 - lng1) * Real.pi / 180 / 2) *
          Real.sin ((lng2 - lng1) * Real.pi / 180 / 2) := by
      rw [hs lat1 lat2, hs lng1 lng2]
      ring
    rw [ha]

/-- Operation sequence reaching a state that violates the
current_volunteers ≤ max_volunteers invariant: a task with
max_volunteers = 1 whose creator accepts two volunteers. -/
def c4ops : List Op :=
  [.createTask 1 0 "t" .t1hour .medium [] 1,
   .offerToHelp 10 1, .acceptVolunteer 1 10,
   .offerToHelp 11 1, .acceptVolunteer 1 11]

/-- C4: the invariant fails on a reachable state — after creating a task
with max_volunteers = 1 and accepting two volunteers through
acceptVolunteer, the task has current_volunteers = 2 while
max_volunteers = 1. -/
theorem acceptVolunteer_exceeds_max :
    ((run c4ops initState).tasks.find? (fun t => t.id == 1)).map
        (fun t => (t.current_volunteers, t.max_volunteers)) = some (2, 1) ∧
    ((run c4ops initState).tasks.any
        (fun t => t.max_volunteers < t.current_volunteers)) = true :=
  ⟨rfl, rfl⟩

/-- Operation sequence producing a completed task that still has a
pending volunteer offer. -/
def c6ops : List Op :=
  [.createTask 1 0 "t" .t1hour .medium [] 2,
   .offerToHelp 10 1, .completeTask 1 5]

/-- C6, counterexample: acceptVolunteer on a pending volunteer of a task
that was already completed moves the task status backward from completed
to in_progress. -/
theorem status_backward_cex :
    statusOf (run c6ops initState) 1 = some .completed ∧
    statusOf (step (.acceptVolunteer 1 10) (run c6ops initState)) 1 =
      some .in_progress :=
  ⟨rfl, rfl⟩

/-- Forward-only movement as the claim words it: a transition is not
backward when it does not return to open from another status and does not
return to in_progress from completed or cancelled. -/
def notBackward (old new : TaskStatus) : Prop :=
  (new = .open_ → old = .open_) ∧
  (new = .in_progress → old ≠ .completed ∧ old ≠ .cancelled)

theorem notBackward_refl (st : TaskStatus) : notBackward st st := by
  refine ⟨fun h => h, fun h => ?_⟩
  subst h
  exact ⟨(fun hc => nomatch hc), (fun hc => nomatch hc)⟩

theorem notBackward_completed (old : TaskStatus) : notBackward old .completed :=
  ⟨(fun h => nomatch h), (fun h => nomatch h)⟩

theorem notBackward_in_progress_of_view {old : TaskStatus}
    (h : old = .open_ ∨ old = .in_progress) : notBackward old .in_progress := by
  rcases h with rfl | rfl
  · exact ⟨(fun h => nomatch h),
      (fun _ => ⟨(fun hc => nomatch hc), (fun hc => nomatch hc)⟩)⟩
  · exact notBackward_refl _

def isAcceptVolunteerOp : Op → Bool
  | .acceptVolunteer _ _ => true
  | _ => false

/-- C6 (amended): every operation other than acceptVolunteer moves no
task status backward (never back to open, never from completed or
cancelled back to in_progress); acceptVolunteer is the exception — it
sets the task status to in_progress unconditionally, which is a backward
move when the task was already completed (see the counterexample). -/
theorem status_forward_amended (s : DBState) (o : Op) (tid : Nat) (t t2 : Task)
    (hids : (s.tasks.map (fun x => x.id)).Nodup)
    (ho : isAcceptVolunteerOp o = false)
    (ht : s.tasks.find? (fun x => x.id == tid) = some t)
    (ht2 : (step o s).tasks.find? (fun x => x.id == tid) = some t2) :
    notBackward t.status t2.status := by
  cases o with
  | createTask id c ti tn u sk mv =>
    simp only [step, createTask] at ht2
    rw [List.find?_append, ht, Option.or_some] at ht2
    obtain rfl := Option.some.inj ht2
    exact notBackward_refl _
  | offerToHelp uid tid1 =>
    have hT : (step (Op.offerToHelp uid tid1) s).tasks = s.tasks := by
      cases hdup : hasVolunteerRow s tid1 uid <;> simp [step, offerToHelp, hdup]
    rw [hT, ht] at ht2
    obtain rfl := Option.some.inj ht2
    exact notBackward_refl _
  | acceptTask uid tid1 =>
    have hfpres : ∀ (g : Task → Task), (∀ x, (g x).id = x.id) →
        ∀ x : Task, ((g x).id == tid) = (x.id == tid) := by
      intro g hg x
      rw [hg x]
    cases hdup : hasVolunteerRow s tid1 uid with
    | true =>
      have hT : (step (Op.acceptTask uid tid1) s).tasks = s.tasks := by
        simp [step, acceptTask, hdup]
      rw [hT, ht] at ht2
      obtain rfl := Option.some.inj ht2
      exact notBackward_refl _
    | false =>
      cases hv : (viewTasks s).find? (fun x => x.id == tid1) with
      | none =>
        have hT : (step (Op.acceptTask uid tid1) s).tasks = s.tasks := by
          simp [step, acceptTask, hdup, hv]
        rw [hT, ht] at ht2
        obtain rfl := Option.some.inj ht2
        exact notBackward_refl _
      | some task =>
        have hT : (step (Op.acceptTask uid tid1) s).tasks =
            s.tasks.map (fun x =>
              if x.id == tid1 then
                { x with
                    current_volunteers := task.current_volunteers + 1,
                    status :=
                      if task.max_volunteers ≤ task.current_volunteers + 1 then
                        TaskStatus.in_progress
                      else task.status }
              else x) := by
          simp [step, acceptTask, hdup, hv]
        rw [hT, find?_map_pred _ _
          (fun x => by by_cases hx : (x.id == tid1) = true <;> simp [hx]), ht] at ht2
        obtain rfl := Option.some.inj ht2
        by_cases hxt : (t.id == tid1) = true
        · have htaskmem : task ∈ s.tasks :=
            (List.mem_filter.mp
              (List.mem_of_find?_eq_some hv)).1
          have htaskview : (task.status == TaskStatus.open_ ||
              task.status == TaskStatus.in_progress) = true :=
            (List.mem_filter.mp (List.mem_of_find?_eq_some hv)).2
          have htaskid : task.id = tid1 := by
            simpa using List.find?_some hv
          have htmem : t ∈ s.tasks := List.mem_of_find?_eq_some ht
          have htid1 : t.id = tid1 := by simpa using hxt
          have htt : task = t :=
            List.inj_on_of_nodup_map hids htaskmem htmem
              (htaskid.trans htid1.symm)
          simp only [hxt, if_pos]
          have hview : t.status = .open_ ∨ t.status = .in_progress := by
            rw [← htt]
            simpa using htaskview
          by_cases hmax : task.max_volunteers ≤ task.current_volunteers + 1
          · simp only [hmax, if_pos]
            exact notBackward_in_progress_of_view hview
          · simp only [hmax, if_neg, ite_false]
            rw [htt]
            exact notBackward_refl _
        · simp only [hxt, ite_false, Bool.false_eq_true, if_false]
          exact notBackward_refl _
  | acceptVolunteer tid1 v1 =>
    exact absurd ho (by simp [isAcceptVolunteerOp])
  | rejectVolunteer tid1 v1 =>
    have hT : (step (Op.rejectVolunteer tid1 v1) s).tasks = s.tasks := by
      simp [step, rejectVolunteer]
    rw [hT, ht] at ht2
    obtain rfl := Option.some.inj ht2
    exact notBackward_refl _
  | withdrawOffer uid tid1 =>
    have hT : (step (Op.withdrawOffer uid tid1) s).tasks = s.tasks := by
      simp [step, withdrawOffer]
    rw [hT, ht] at ht2
    obtain rfl := Option.some.inj ht2
    exact notBackward_refl _
  | completeTask tid1 n =>
    have hT : (step (Op.completeTask tid1 n) s).tasks =
        s.tasks.map (fun x =>
          if x.id == tid1 then
            { x with status := TaskStatus.completed, completed_at := some n }
          else x) := by
      simp [step, completeTask]
    rw [hT, find?_map_pred _ _
      (fun x => by by_cases hx : (x.id == tid1) = true <;> simp [hx]), ht] at ht2
    obtain rfl := Option.some.inj ht2
    by_cases hxt : (t.id == tid1) = true
    · simp only [hxt, if_pos]
      exact notBackward_completed _
    · simp only [hxt, ite_false, Bool.false_eq_true, if_false]
      exact notBackward_refl _

/-- Concrete state for the forward-status witness: one freshly created
task. -/
def witState : DBState :=
  run [.createTask 1 0 "t" .t1hour .medium [] 2] initState

def witTask6 : Task :=
  { id := 1, creator_id := 0, title := "t", time_needed := .t1hour,
    urgency := .medium, status := .open_, skills_needed := [],
    max_volunteers := 2, current_volunteers := 0, completed_at := none,
    distance := none }

def witTask6done : Task :=
  { id := 1, creator_id := 0, title := "t", time_needed := .t1hour,
    urgency := .medium, status := .completed, skills_needed := [],
    max_volunteers := 2, current_volunteers := 0, completed_at := some 7,
    distance := none }

theorem status_forward_amended_witness :
    ((witState.tasks.map (fun x => x.id)).Nodup ∧
     isAcceptVolunteerOp (Op.completeTask 1 7) = false ∧
     witState.tasks.find? (fun x => x.id == 1) = some witTask6 ∧
     (step (Op.completeTask 1 7) witState).tasks.find? (fun x => x.id == 1) =
       some witTask6done) ∧
    notBackward witTask6.status witTask6done.status :=
  ⟨⟨by decide, rfl, rfl, rfl⟩,
    status_forward_amended witState (Op.completeTask 1 7) 1 witTask6 witTask6done
      (by decide) rfl rfl rfl⟩

/-! ## Profile update lemmas for completeTask -/

theorem bumpProfile_find_same (uid : Nat) (h : ℚ) (ps : List ProfileRow)
    (pa : ProfileRow) (hpa : ps.find? (fun p => p.user_id == uid) = some pa) :
    (bumpProfile uid h ps).find? (fun p => p.user_id == uid) =
      some { pa with tasks_completed := pa.tasks_completed + 1,
                     total_volunteer_hours := pa.total_volunteer_hours + h } := by
  rw [bumpProfile, if_pos (any_of_find?_eq_some hpa),
    find?_map_pred _ _ (fun x => by by_cases hx : (x.user_id == uid) = true <;> simp [hx]),
    hpa, Option.map_some']
  rw [if_pos (List.find?_some hpa)]

theorem bumpProfile_find_other (uid uid2 : Nat) (h : ℚ) (ps : List ProfileRow)
    (hne : uid2 ≠ uid) :
    (bumpProfile uid h ps).find? (fun p => p.user_id == uid2) =
      ps.find? (fun p => p.user_id == uid2) := by
  rw [bumpProfile]
  by_cases hany : ps.any (fun p => p.user_id == uid) = true
  · rw [if_pos hany,
      find?_map_pred _ _ (fun x => by by_cases hx : (x.user_id == uid) = true <;> simp [hx])]
    cases hfind : ps.find? (fun p => p.user_id == uid2) with
    | none => rfl
    | some x =>
      rw [Option.map_some']
      have hx2 : x.user_id = uid2 := by simpa using List.find?_some hfind
      rw [if_neg (by simp [hx2, hne])]
  · rw [if_neg hany]

/-- C2: completing a task with time_needed 1hour and exactly two accepted
volunteers marks the task completed with completed_at = now, and adds
exactly 1 to tasks_completed and exactly 1.0 to total_volunteer_hours of
each of the two volunteers' profiles (hours from the lookup table
15min→0.25, 30min→0.5, 1hour→1, 2hours→2, half_day→4). -/
theorem completeTask_two_accepted (s : DBState) (tid now a b : Nat)
    (t : Task) (v1 v2 : TaskVolunteer) (pa pb : ProfileRow)
    (hids : (s.tasks.map (fun x => x.id)).Nodup)
    (ht : t ∈ s.tasks) (htid : t.id = tid)
    (hview : t.status = .open_ ∨ t.status = .in_progress)
    (htn : t.time_needed = .t1hour)
    (hacc : s.volunteers.filter
      (fun w => w.task_id == tid && w.status == .accepted) = [v1, v2])
    (ha : v1.volunteer_id = a) (hb : v2.volunteer_id = b) (hab : a ≠ b)
    (hpa : s.profiles.find? (fun p => p.user_id == a) = some pa)
    (hpb : s.profiles.find? (fun p => p.user_id == b) = some pb) :
    (completeTask tid now s).tasks.find? (fun x => x.id == tid) =
      some { t with status := .completed, completed_at := some now } ∧
    (completeTask tid now s).profiles.find? (fun p => p.user_id == a) =
      some { pa with tasks_completed := pa.tasks_completed + 1,
                     total_volunteer_hours := pa.total_volunteer_hours + 1 } ∧
    (completeTask tid now s).profiles.find? (fun p => p.user_id == b) =
      some { pb with tasks_completed := pb.tasks_completed + 1,
                     total_volunteer_hours := pb.total_volunteer_hours + 1 } := by
  have hviewmem : t ∈ viewTasks s := by
    rw [viewTasks]
    refine List.mem_filter.mpr ⟨ht, ?_⟩
    rcases hview with h1 | h1 <;> simp [h1]
  have hviewnodup : ((viewTasks s).map (fun x => x.id)).Nodup :=
    List.Nodup.sublist (List.Sublist.map _ (List.filter_sublist s.tasks)) hids
  have hviewfind : (viewTasks s).find? (fun x => x.id == tid) = some t :=
    find?_key_unique (fun x => x.id) hviewnodup hviewmem htid
  have hsfind : s.tasks.find? (fun x => x.id == tid) = some t :=
    find?_key_unique (fun x => x.id) hids ht htid
  refine ⟨?_, ?_, ?_⟩
  · simp only [completeTask]
    rw [find?_map_pred _ _
      (fun x => by by_cases hx : (x.id == tid) = true <;> simp [hx]),
      hsfind, Option.map_some', if_pos (by simp [htid])]
  · simp only [completeTask, hviewfind, hacc, htn, List.foldl_cons, List.foldl_nil,
      ha, hb, hoursFor]
    rw [bumpProfile_find_other b a 1 _ hab, bumpProfile_find_same a 1 _ pa hpa]
  · simp only [completeTask, hviewfind, hacc, htn, List.foldl_cons, List.foldl_nil,
      ha, hb, hoursFor]
    rw [bumpProfile_find_same b 1 _ pb]
    rw [bumpProfile_find_other a b 1 _ (Ne.symm hab), hpb]

/-- Concrete inputs for the completeTask witness. -/
def witC2task : Task :=
  { id := 1, creator_id := 0, title := "t", time_needed := .t1hour,
    urgency := .medium, status := .in_progress, skills_needed := [],
    max_volunteers := 2, current_volunteers := 2, completed_at := none,
    distance := none }

def witC2v1 : TaskVolunteer := { task_id := 1, volunteer_id := 10, status := .accepted }

def witC2v2 : TaskVolunteer := { task_id := 1, volunteer_id := 11, status := .accepted }

def witC2pa : ProfileRow :=
  { user_id := 10, skills := [], tasks_completed := 0, total_volunteer_hours := 0 }

def witC2pb : ProfileRow :=
  { user_id := 11, skills := [], tasks_completed := 2, total_volunteer_hours := 2 }

def witC2state : DBState :=
  { tasks := [witC2task], volunteers := [witC2v1, witC2v2],
    profiles := [witC2pa, witC2pb] }

theorem completeTask_two_accepted_witness :
    ((witC2state.tasks.map (fun x => x.id)).Nodup ∧
     witC2task ∈ witC2state.tasks ∧ witC2task.id = 1 ∧
     (witC2task.status = .open_ ∨ witC2task.status = .in_progress) ∧
     witC2task.time_needed = .t1hour ∧
     witC2state.volunteers.filter
       (fun w => w.task_id == 1 && w.status == .accepted) = [witC2v1, witC2v2] ∧
     witC2v1.volunteer_id = 10 ∧ witC2v2.volunteer_id = 11 ∧ (10 : Nat) ≠ 11 ∧
     witC2state.profiles.find? (fun p => p.user_id == 10) = some witC2pa ∧
     witC2state.profiles.find? (fun p => p.user_id == 11) = some witC2pb) ∧
    ((completeTask 1 9 witC2state).tasks.find? (fun x => x.id == 1) =
       some { witC2task with status := .completed, completed_at := some 9 } ∧
     (completeTask 1 9 witC2state).profiles.find? (fun p => p.user_id == 10) =
       some { witC2pa with tasks_completed := witC2pa.tasks_completed + 1,
                           total_volunteer_hours := witC2pa.total_volunteer_hours + 1 } ∧
     (completeTask 1 9 witC2state).profiles.find? (fun p => p.user_id == 11) =
       some { witC2pb with tasks_completed := witC2pb.tasks_completed + 1,
                           total_volunteer_hours := witC2pb.total_volunteer_hours + 1 }) :=
  ⟨⟨by decide, by decide, rfl, Or.inr rfl, rfl, rfl, rfl, rfl, by decide, rfl, rfl⟩,
    completeTask_two_accepted witC2state 1 9 10 11 witC2task witC2v1 witC2v2
      witC2pa witC2pb (by decide) (by decide) rfl (Or.inr rfl) rfl rfl rfl rfl
      (by decide) rfl rfl⟩

/-! ## Accepted-count lemma for acceptVolunteer -/

theorem flip_accepted_length (tid volId : Nat) :
    ∀ (l : List TaskVolunteer) (v : TaskVolunteer),
      l.filter (fun w => w.task_id == tid && w.volunteer_id == volId) = [v] →
      v.status = .pending →
      ((l.map (fun w =>
          if w.task_id == tid && w.volunteer_id == volId then
            { w with status := VolunteerStatus.accepted }
          else w)).filter
        (fun w => w.task_id == tid && w.status == .accepted)).length =
      (l.filter (fun w => w.task_id == tid && w.status == .accepted)).length + 1 := by
  intro l
  induction l with
  | nil => intro v h; simp at h
  | cons x l ih =>
    intro v hkey hpend
    rw [List.filter_cons] at hkey
    by_cases hk : (x.task_id == tid && x.volunteer_id == volId) = true
    · rw [if_pos hk] at hkey
      obtain ⟨rfl, hnil⟩ : x = v ∧
          l.filter (fun w => w.task_id == tid && w.volunteer_id == volId) = [] := by
        simpa using hkey
      have hmap : l.map (fun w =>
          if w.task_id == tid && w.volunteer_id == volId then
            { w with status := VolunteerStatus.accepted }
          else w) = l :=
        map_eq_self_of_filter_nil (fun w hw => by simp [hw]) l hnil
      have hxtid : (x.task_id == tid) = true := ((Bool.and_eq_true _ _).mp hk).1
      rw [List.map_cons, hmap, if_pos hk, List.filter_cons, List.filter_cons]
      rw [if_pos (show (({ x with status := VolunteerStatus.accepted } :
          TaskVolunteer).task_id == tid &&
          ({ x with status := VolunteerStatus.accepted } :
            TaskVolunteer).status == VolunteerStatus.accepted) = true by simp [hxtid])]
      rw [if_neg (show ¬(x.task_id == tid &&
          x.status == VolunteerStatus.accepted) = true by simp [hpend])]
      simp
    · rw [if_neg hk] at hkey
      have hx : (if (x.task_id == tid && x.volunteer_id == volId) = true then
          ({ x with status := VolunteerStatus.accepted } : TaskVolunteer)
          else x) = x := if_neg hk
      rw [List.map_cons, hx, List.filter_cons, List.filter_cons]
      by_cases ha : (x.task_id == tid && x.status == VolunteerStatus.accepted) = true
      · rw [if_pos ha, if_pos ha, List.length_cons, List.length_cons,
          ih v hkey hpend]
      · rw [if_neg ha, if_neg ha]
        exact ih v hkey hpend

/-- C3: a successful acceptVolunteer on a pending volunteer of a task
sets that volunteer row to accepted, sets the task's current_volunteers
to the count of accepted volunteers of the task in the resulting state,
and sets the task status to in_progress unconditionally — with no
hypothesis on the prior task status or on max_volunteers. -/
theorem acceptVolunteer_spec (s : DBState) (tid volId : Nat)
    (v : TaskVolunteer) (t : Task)
    (hids : (s.tasks.map (fun x => x.id)).Nodup)
    (hkey : s.volunteers.filter
      (fun w => w.task_id == tid && w.volunteer_id == volId) = [v])
    (hpend : v.status = .pending)
    (ht : t ∈ s.tasks) (htid : t.id = tid) :
    (acceptVolunteer tid volId s).volunteers.find?
        (fun w => w.task_id == tid && w.volunteer_id == volId) =
      some { v with status := .accepted } ∧
    (acceptVolunteer tid volId s).tasks.find? (fun x => x.id == tid) =
      some { t with
        current_volunteers :=
          ((acceptVolunteer tid volId s).volunteers.filter
            (fun w => w.task_id == tid && w.status == .accepted)).length,
        status := .in_progress } := by
  have hvfind : s.volunteers.find?
      (fun w => w.task_id == tid && w.volunteer_id == volId) = some v :=
    find?_eq_of_filter_singleton hkey
  have hvkey : (v.task_id == tid && v.volunteer_id == volId) = true := by
    simpa using List.find?_some hvfind
  constructor
  · simp only [acceptVolunteer]
    rw [find?_map_pred _ _ (fun x => by
        by_cases hx : (x.task_id == tid && x.volunteer_id == volId) = true <;>
          simp [hx]),
      hvfind, Option.map_some', if_pos hvkey]
  · have hcount :
        ((acceptVolunteer tid volId s).volunteers.filter
          (fun w => w.task_id == tid && w.status == .accepted)).length =
        (s.volunteers.filter
          (fun w => w.task_id == tid && w.status == .accepted)).length + 1 := by
      simp only [acceptVolunteer]
      exact flip_accepted_length tid volId s.volunteers v hkey hpend
    rw [hcount]
    simp only [acceptVolunteer]
    rw [find?_map_pred _ _ (fun x => by
        by_cases hx : (x.id == tid) = true <;> simp [hx]),
      find?_key_unique (fun x => x.id) hids ht htid, Option.map_some',
      if_pos (by simp [htid])]

/-- Concrete inputs for the acceptVolunteer witness. -/
def witC3task : Task :=
  { id := 1, creator_id := 0, title := "t", time_needed := .t1hour,
    urgency := .medium, status := .open_, skills_needed := [],
    max_volunteers := 3, current_volunteers := 0, completed_at := none,
    distance := none }

def witC3v : TaskVolunteer := { task_id := 1, volunteer_id := 10, status := .pending }

def witC3state : DBState :=
  { tasks := [witC3task], volunteers := [witC3v], profiles := [] }

theorem acceptVolunteer_spec_witness :
    ((witC3state.tasks.map (fun x => x.id)).Nodup ∧
     witC3state.volunteers.filter
       (fun w => w.task_id == 1 && w.volunteer_id == 10) = [witC3v] ∧
     witC3v.status = .pending ∧ witC3task ∈ witC3state.tasks ∧ witC3task.id = 1) ∧
    ((acceptVolunteer 1 10 witC3state).volunteers.find?
        (fun w => w.task_id == 1 && w.volunteer_id == 10) =
      some { witC3v with status := .accepted } ∧
     (acceptVolunteer 1 10 witC3state).tasks.find? (fun x => x.id == 1) =
      some { witC3task with
        current_volunteers :=
          ((acceptVolunteer 1 10 witC3state).volunteers.filter
            (fun w => w.task_id == 1 && w.status == .accepted)).length,
        status := .in_progress }) :=
  ⟨⟨by decide, rfl, rfl, by decide, rfl⟩,
    acceptVolunteer_spec witC3state 1 10 witC3v witC3task (by decide) rfl rfl
      (by decide) rfl⟩

/-- C7: when the caller holds no volunteer row on the task, offerToHelp
succeeds and inserts exactly one pending row (caller status none →
pending); a second offerToHelp by the same caller hits the unique
(task_id, volunteer_id) constraint, returns an error, and leaves the
state unchanged, so the status does not regress and no second row
appears. -/
theorem offerToHelp_no_regress (s : DBState) (uid tid : Nat)
    (h0 : s.volunteers.find?
      (fun v => v.task_id == tid && v.volunteer_id == uid) = none) :
    ∃ s2, offerToHelp uid tid s = .ok s2 ∧
      userStatus s tid uid = none ∧
      userStatus s2 tid uid = some .pending ∧
      (s2.volunteers.filter
        (fun v => v.task_id == tid && v.volunteer_id == uid)).length = 1 ∧
      (∃ e, offerToHelp uid tid s2 = .error e) ∧
      step (.offerToHelp uid tid) s2 = s2 := by
  have hnone : ∀ x ∈ s.volunteers,
      ¬(x.task_id == tid && x.volunteer_id == uid) = true :=
    List.find?_eq_none.mp h0
  have hnorow : hasVolunteerRow s tid uid = false := by
    rw [hasVolunteerRow]
    exact List.any_eq_false.mpr hnone
  have hnil : s.volunteers.filter
      (fun v => v.task_id == tid && v.volunteer_id == uid) = [] :=
    List.filter_eq_nil_iff.mpr hnone
  refine ⟨{ s with volunteers := s.volunteers ++
      [{ task_id := tid, volunteer_id := uid, status := .pending }] },
    ?_, ?_, ?_, ?_, ?_, ?_⟩
  · rw [offerToHelp, if_neg (by simp [hnorow])]
  · rw [userStatus, h0]
    rfl
  · rw [userStatus]
    simp only [List.find?_append, h0, Option.none_or]
    simp
  · simp only [List.filter_append, hnil]
    simp
  · refine ⟨"duplicate key value violates unique constraint", ?_⟩
    rw [offerToHelp, if_pos (by simp [hasVolunteerRow])]
  · have herr : offerToHelp uid tid { s with volunteers := s.volunteers ++
        [{ task_id := tid, volunteer_id := uid, status := .pending }] } =
        .error "duplicate key value violates unique constraint" := by
      rw [offerToHelp, if_pos (by simp [hasVolunteerRow])]
    simp [step, herr]

/-- Concrete input for the offerToHelp witness. -/
def witC7state : DBState :=
  { tasks := [], volunteers := [{ task_id := 2, volunteer_id := 5, status := .pending }],
    profiles := [] }

theorem offerToHelp_no_regress_witness :
    witC7state.volunteers.find?
      (fun v => v.task_id == 1 && v.volunteer_id == 10) = none ∧
    (∃ s2, offerToHelp 10 1 witC7state = .ok s2 ∧
      userStatus witC7state 1 10 = none ∧
      userStatus s2 1 10 = some .pending ∧
      (s2.volunteers.filter
        (fun v => v.task_id == 1 && v.volunteer_id == 10)).length = 1 ∧
      (∃ e, offerToHelp 10 1 s2 = .error e) ∧
      step (.offerToHelp 10 1) s2 = s2) :=
  ⟨by decide, offerToHelp_no_regress witC7state 10 1 (by decide)⟩

/-- C10: withdrawOffer deletes exactly the caller's own volunteer rows of
the task and touches nothing else: the tasks table (hence the parent
task's current_volunteers and status) and the profiles table are
unchanged — even when the withdrawn volunteer had been accepted — the
caller's derived status becomes none, and every other user's status on
the task is unchanged. -/
theorem withdrawOffer_frame (s : DBState) (uid tid : Nat) :
    (withdrawOffer uid tid s).tasks = s.tasks ∧
    (withdrawOffer uid tid s).profiles = s.profiles ∧
    statusOf (withdrawOffer uid tid s) tid = statusOf s tid ∧
    ((withdrawOffer uid tid s).tasks.find? (fun x => x.id == tid)).map
        (fun x => x.current_volunteers) =
      (s.tasks.find? (fun x => x.id == tid)).map (fun x => x.current_volunteers) ∧
    userStatus (withdrawOffer uid tid s) tid uid = none ∧
    (∀ uid2, uid2 ≠ uid →
      userStatus (withdrawOffer uid tid s) tid uid2 = userStatus s tid uid2) ∧
    (∀ v, v ∈ (withdrawOffer uid tid s).volunteers ↔
      (v ∈ s.volunteers ∧ ¬(v.task_id = tid ∧ v.volunteer_id = uid))) := by
  refine ⟨rfl, rfl, rfl, rfl, ?_, ?_, ?_⟩
  · rw [userStatus, withdrawOffer]
    rw [List.find?_eq_none.mpr]
    · rfl
    · intro x hx
      have hk := (List.mem_filter.mp hx).2
      simp only [Bool.not_eq_eq_eq_not, Bool.not_true] at hk
      simp [hk]
  · intro uid2 hne
    rw [userStatus, userStatus, withdrawOffer]
    rw [find?_filter_of_imp _ _ ?_]
    intro x hx
    have hvol : x.volunteer_id = uid2 := by
      have := (Bool.and_eq_true _ _).mp hx
      simpa using this.2
    simp [hvol, hne]
  · intro v
    simp only [withdrawOffer, List.mem_filter]
    constructor
    · rintro ⟨hv, hkeep⟩
      refine ⟨hv, ?_⟩
      rintro ⟨h1, h2⟩
      simp [h1, h2] at hkeep
    · rintro ⟨hv, hkeep⟩
      refine ⟨hv, ?_⟩
      simp only [Bool.not_eq_eq_eq_not, Bool.not_true, Bool.and_eq_false_iff]
      by_cases h1 : v.task_id = tid
      · right
        simp only [beq_eq_false_iff_ne, ne_eq]
        intro h2
        exact hkeep ⟨h1, h2⟩
      · left
        simp [h1]

/-- Concrete input for the withdrawOffer witness: the withdrawn
volunteer is an accepted one. -/
def witC10state : DBState :=
  { tasks := [witC3task],
    volunteers := [{ task_id := 1, volunteer_id := 10, status := .accepted },
                   { task_id := 1, volunteer_id := 11, status := .pending }],
    profiles := [] }

theorem withdrawOffer_frame_witness :
    (withdrawOffer 10 1 witC10state).tasks = witC10state.tasks ∧
    (withdrawOffer 10 1 witC10state).profiles = witC10state.profiles ∧
    statusOf (withdrawOffer 10 1 witC10state) 1 = statusOf witC10state 1 ∧
    ((withdrawOffer 10 1 witC10state).tasks.find? (fun x => x.id == 1)).map
        (fun x => x.current_volunteers) =
      (witC10state.tasks.find? (fun x => x.id == 1)).map
        (fun x => x.current_volunteers) ∧
    userStatus (withdrawOffer 10 1 witC10state) 1 10 = none ∧
    (∀ uid2, uid2 ≠ 10 →
      userStatus (withdrawOffer 10 1 witC10state) 1 uid2 =
        userStatus witC10state 1 uid2) ∧
    (∀ v, v ∈ (withdrawOffer 10 1 witC10state).volunteers ↔
      (v ∈ witC10state.volunteers ∧ ¬(v.task_id = 1 ∧ v.volunteer_id = 10))) :=
  withdrawOffer_frame witC10state 10 1

end HelpNow
